import Mathlib

/-!
Verification of the complaint-management core of the cms-project repository:
the complaint lifecycle state machine, tenant-scoped role-based
authorization, and the audit trail.  The definitions below are a shallow
embedding of `core/models.py`, `core/views.py`, `core/forms.py` and
`core/decorators.py`.  Django machinery is made explicit: the database is a
partial map from primary key to complaint, timestamps are natural numbers
supplied by the caller, the random reference-number suffix is a string
supplied by the caller, and each view returns the HTTP-level response
together with the saved complaint (if any) and the audit entries created.
-/

namespace CMS

/-- Roles from `UserProfile.ROLE_CHOICES` in core/models.py. -/
inductive Role where
  | ROLE_CONSUMER
  | ROLE_HELPDESK
  | ROLE_SUPPORT
  | ROLE_MANAGER
  | ROLE_ADMIN
deriving DecidableEq, Repr

export Role (ROLE_CONSUMER ROLE_HELPDESK ROLE_SUPPORT ROLE_MANAGER ROLE_ADMIN)

/-- Complaint statuses from `Complaint.STATUS_CHOICES` in core/models.py. -/
inductive Status where
  | STATUS_OPEN
  | STATUS_IN_PROGRESS
  | STATUS_RESOLVED
  | STATUS_CLOSED
deriving DecidableEq, Repr

export Status (STATUS_OPEN STATUS_IN_PROGRESS STATUS_RESOLVED STATUS_CLOSED)

/-- The database string value of a status, as stored in the model field. -/
def statusStr : Status → String
  | STATUS_OPEN => "open"
  | STATUS_IN_PROGRESS => "in_progress"
  | STATUS_RESOLVED => "resolved"
  | STATUS_CLOSED => "closed"

/-- Priorities from `Complaint.PRIORITY_CHOICES` in core/models.py. -/
inductive Priority where
  | PRIORITY_LOW
  | PRIORITY_MEDIUM
  | PRIORITY_HIGH
deriving DecidableEq, Repr

/-- Audit actions from `AuditLog.ACTION_CHOICES` in core/models.py. -/
inductive Action where
  | ACTION_CREATED
  | ACTION_STATUS_CHANGE
  | ACTION_ASSIGNED
  | ACTION_RESOLUTION_ADDED
  | ACTION_CLOSED
deriving DecidableEq, Repr

export Action (ACTION_CREATED ACTION_STATUS_CHANGE ACTION_ASSIGNED
  ACTION_RESOLUTION_ADDED ACTION_CLOSED)

/-- `UserProfile` of core/models.py: tenant membership plus role.
Tenants are identified by a natural number. -/
structure Profile where
  tenant : Nat
  role : Role
deriving DecidableEq, Repr

/-- A request actor: an authenticated Django user, whose profile is absent
when no `UserProfile` row exists (the `hasattr(user, "profile")` check). -/
structure Actor where
  userId : Nat
  profile : Option Profile
deriving DecidableEq, Repr

/-- The `Complaint` model of core/models.py.  `created_at` and `updated_at`
are managed by Django (`auto_now_add` / `auto_now`) and play no role in any
claim, so they are omitted; the remaining fields are carried verbatim.
Users are identified by their id. -/
structure Complaint where
  id : Nat
  tenant : Nat
  reference_number : String
  title : String
  description : String
  category : String
  priority : Priority
  status : Status
  submitted_by : Option Nat
  logged_by : Option Nat
  assigned_to : Option Nat
  resolution_notes : String
  resolved_at : Option Nat
  closed_at : Option Nat
deriving DecidableEq, Repr

/-- The `AuditLog` model of core/models.py (minus `created_at`). -/
structure AuditLog where
  tenant : Nat
  complaint : Nat
  user : Option Nat
  action : Action
  details : String
  old_value : String
  new_value : String
deriving DecidableEq, Repr

/-- `Complaint.save` in core/models.py.  `now` is the value of
`timezone.now()`; `freshRef` stands for the reference number the generator
would produce (`_generate_reference_number` draws from `uuid.uuid4`, an
external randomness source, so the value is a parameter).  An empty string
is falsy in Python, hence the `= ""` tests mirror `if not self.field`. -/
def Complaint.save (c : Complaint) (now : Nat) (freshRef : String) : Complaint :=
  let c := if c.reference_number = "" then { c with reference_number := freshRef } else c
  let c := if c.status = STATUS_RESOLVED ∧ c.resolved_at = none then
    { c with resolved_at := some now } else c
  let c := if c.status = STATUS_CLOSED ∧ c.closed_at = none then
    { c with closed_at := some now } else c
  c

/-- The transition table of `Complaint.can_update_status` in
core/models.py. -/
def valid_transitions (s : Status) : List Status :=
  match s with
  | STATUS_OPEN => [STATUS_IN_PROGRESS]
  | STATUS_IN_PROGRESS => [STATUS_RESOLVED, STATUS_OPEN]
  | STATUS_RESOLVED => [STATUS_CLOSED, STATUS_IN_PROGRESS]
  | STATUS_CLOSED => []

/-- `Complaint.can_update_status` in core/models.py. -/
def Complaint.can_update_status (c : Complaint) (new_status : Status) : Bool :=
  new_status ∈ valid_transitions c.status

/-- The complaint table: primary key to row.  Views fetch rows through
`get_object_or_404(Complaint, pk=pk, tenant=...)`. -/
def Db := Nat → Option Complaint

/-- `get_object_or_404(Complaint, pk=pk, tenant=tenantId)`: the row must
match both the primary key and the tenant filter, otherwise Django raises
Http404. -/
def get_object_or_404 (db : Db) (pk tenantId : Nat) : Option Complaint :=
  match db pk with
  | none => none
  | some c => if c.tenant = tenantId then some c else none

/-- HTTP-level observable outcome of a view. -/
inductive Response where
  | redirect (target : String)
  | notFound
  | forbidden (msg : String)
  | render (template : String)
deriving DecidableEq, Repr

/-- Result of one view invocation: the response sent to the caller, the
complaint row written back (none when nothing was saved), and the audit
entries created by the invocation. -/
structure ViewResult where
  response : Response
  saved : Option Complaint
  audits : List AuditLog
deriving DecidableEq, Repr

/-- HTTP method of the request; the mutating views only act on POST. -/
inductive Method where
  | GET
  | POST
deriving DecidableEq, Repr

/-- `role_required` in core/decorators.py: returns the rejection response,
or none when the gate passes.  Authentication is assumed (all our actors
are authenticated users). -/
def role_required (allowed : List Role) (actor : Actor) : Option Response :=
  match actor.profile with
  | none => some (Response.forbidden "User profile not configured.")
  | some p =>
    if p.role ∈ allowed then none
    else some (Response.forbidden "You do not have permission to perform this action.")

/-- `create_audit_log` in core/views.py. -/
def create_audit_log (complaint : Complaint) (userId : Nat) (action : Action)
    (details old_value new_value : String) : AuditLog :=
  { tenant := complaint.tenant
    complaint := complaint.id
    user := some userId
    action := action
    details := details
    old_value := old_value
    new_value := new_value }

/-- `complaint_update_status` in core/views.py.  `new_status` is the
cleaned form value; `ComplaintStatusForm` exposes the full status choice
list, so any of the four statuses can arrive here.  Crucially the form is
a ModelForm bound to the fetched instance —
`ComplaintStatusForm(request.POST, instance=complaint)` — and
`form.is_valid()` runs `_post_clean`, which writes the posted status into
`complaint` before the view body continues.  Hence the first update below
models the binding: `old_status` then reads the already-updated status,
`can_update_status` compares the requested status against its own table
row, and the explicit `complaint.status = new_status` assignment of
views.py:229 (the second update) re-writes the value the binding already
wrote. -/
def complaint_update_status (db : Db) (actor : Actor) (pk : Nat)
    (method : Method) (new_status : Status) (now : Nat) (freshRef : String) :
    ViewResult :=
  match role_required [ROLE_HELPDESK, ROLE_SUPPORT, ROLE_MANAGER, ROLE_ADMIN] actor with
  | some r => { response := r, saved := none, audits := [] }
  | none =>
    match actor.profile with
    | none => { response := Response.forbidden "User profile not configured.", saved := none, audits := [] }
    | some profile =>
      match get_object_or_404 db pk profile.tenant with
      | none => { response := Response.notFound, saved := none, audits := [] }
      | some complaint =>
        if method = Method.POST then
          let complaint := { complaint with status := new_status }
          let old_status := complaint.status
          if complaint.can_update_status new_status ∨ profile.role = ROLE_ADMIN then
            let c1 := { complaint with status := new_status }
            let c2 := c1.save now freshRef
            { response := Response.redirect "complaint_detail"
              saved := some c2
              audits := [create_audit_log c2 actor.userId ACTION_STATUS_CHANGE
                ("Status changed from " ++ statusStr old_status ++ " to " ++ statusStr new_status)
                (statusStr old_status) (statusStr new_status)] }
          else
            { response := Response.redirect "complaint_detail", saved := none, audits := [] }
        else
          { response := Response.redirect "complaint_detail", saved := none, audits := [] }

/-- `complaint_detail` in core/views.py.  Actors without a profile are
redirected to the dashboard; the row is fetched tenant-filtered; a consumer
who is not the submitter receives HttpResponseForbidden; otherwise the
detail template is rendered. -/
def complaint_detail (db : Db) (actor : Actor) (pk : Nat) : ViewResult :=
  match actor.profile with
  | none => { response := Response.redirect "dashboard", saved := none, audits := [] }
  | some profile =>
    match get_object_or_404 db pk profile.tenant with
    | none => { response := Response.notFound, saved := none, audits := [] }
    | some complaint =>
      if profile.role = ROLE_CONSUMER ∧ complaint.submitted_by ≠ some actor.userId then
        { response := Response.forbidden "You do not have permission to view this complaint."
          saved := none, audits := [] }
      else
        { response := Response.render "core/complaint_detail.html", saved := none, audits := [] }

/-- `complaint_create` in core/views.py (the POST branch with the bound
form).  `ComplaintForm` requires `title` and `description` (Django model
fields without `blank=True`), so form validity is their non-emptiness;
`on_behalf` is the optional `submitted_by` form field shown to staff.
`pk` is the primary key the insert assigns. -/
def complaint_create (actor : Actor) (method : Method)
    (title description category : String) (priority : Priority)
    (on_behalf : Option Nat) (pk now : Nat) (freshRef : String) : ViewResult :=
  match actor.profile with
  | none => { response := Response.redirect "dashboard", saved := none, audits := [] }
  | some profile =>
    if method = Method.POST then
      if title ≠ "" ∧ description ≠ "" then
        let c0 : Complaint :=
          { id := pk
            tenant := profile.tenant
            reference_number := ""
            title := title
            description := description
            category := category
            priority := priority
            status := STATUS_OPEN
            submitted_by := if profile.role = ROLE_CONSUMER then some actor.userId else on_behalf
            logged_by := if profile.role = ROLE_CONSUMER then none else some actor.userId
            assigned_to := none
            resolution_notes := ""
            resolved_at := none
            closed_at := none }
        let c := c0.save now freshRef
        { response := Response.redirect "complaint_detail"
          saved := some c
          audits := [create_audit_log c actor.userId ACTION_CREATED
            ("Complaint created: " ++ c.title) "" ""] }
      else
        { response := Response.render "core/complaint_form.html", saved := none, audits := [] }
    else
      { response := Response.render "core/complaint_form.html", saved := none, audits := [] }

/-- `complaint_assign` in core/views.py.  `new_assigned` is the cleaned
`assigned_to` form value (a required choice among the support/manager staff
of the tenant; validity of the choice is assumed by passing the id). -/
def complaint_assign (db : Db) (actor : Actor) (pk : Nat) (method : Method)
    (new_assigned : Nat) (now : Nat) (freshRef : String) : ViewResult :=
  match role_required [ROLE_HELPDESK, ROLE_MANAGER, ROLE_ADMIN] actor with
  | some r => { response := r, saved := none, audits := [] }
  | none =>
    match actor.profile with
    | none => { response := Response.forbidden "User profile not configured.", saved := none, audits := [] }
    | some profile =>
      match get_object_or_404 db pk profile.tenant with
      | none => { response := Response.notFound, saved := none, audits := [] }
      | some complaint =>
        if method = Method.POST then
          let c1 := { complaint with assigned_to := some new_assigned }
          let c2 := if c1.status = STATUS_OPEN then
            { c1 with status := STATUS_IN_PROGRESS } else c1
          let c3 := c2.save now freshRef
          let old_name := match complaint.assigned_to with
            | none => "Unassigned"
            | some u => toString u
          let new_name := toString new_assigned
          { response := Response.redirect "complaint_detail"
            saved := some c3
            audits := [create_audit_log c3 actor.userId ACTION_ASSIGNED
              ("Assigned to " ++ new_name) old_name new_name] }
        else
          { response := Response.redirect "complaint_detail", saved := none, audits := [] }

/-- `complaint_add_resolution` in core/views.py.  `notes` is the cleaned
`resolution_notes` form value; `ResolutionForm` requires it non-empty. -/
def complaint_add_resolution (db : Db) (actor : Actor) (pk : Nat)
    (method : Method) (notes : String) (now : Nat) (freshRef : String) : ViewResult :=
  match role_required [ROLE_SUPPORT, ROLE_MANAGER, ROLE_ADMIN] actor with
  | some r => { response := r, saved := none, audits := [] }
  | none =>
    match actor.profile with
    | none => { response := Response.forbidden "User profile not configured.", saved := none, audits := [] }
    | some profile =>
      match get_object_or_404 db pk profile.tenant with
      | none => { response := Response.notFound, saved := none, audits := [] }
      | some complaint =>
        if method = Method.POST ∧ notes ≠ "" then
          let c1 := { complaint with resolution_notes := notes }
          let c2 := c1.save now freshRef
          { response := Response.redirect "complaint_detail"
            saved := some c2
            audits := [create_audit_log c2 actor.userId ACTION_RESOLUTION_ADDED
              "Resolution notes updated" "" ""] }
        else
          { response := Response.redirect "complaint_detail", saved := none, audits := [] }

/-- `complaint_close` in core/views.py: only the submitting user may close,
and only from the Resolved status; the GET branch renders a confirmation
page without mutating. -/
def complaint_close (db : Db) (actor : Actor) (pk : Nat) (method : Method)
    (now : Nat) (freshRef : String) : ViewResult :=
  match actor.profile with
  | none => { response := Response.redirect "dashboard", saved := none, audits := [] }
  | some profile =>
    match get_object_or_404 db pk profile.tenant with
    | none => { response := Response.notFound, saved := none, audits := [] }
    | some complaint =>
      if complaint.submitted_by ≠ some actor.userId then
        { response := Response.forbidden "Only the complaint owner can close it."
          saved := none, audits := [] }
      else if complaint.status ≠ STATUS_RESOLVED then
        { response := Response.redirect "complaint_detail", saved := none, audits := [] }
      else if method = Method.POST then
        let c1 := { complaint with status := STATUS_CLOSED }
        let c2 := c1.save now freshRef
        { response := Response.redirect "complaint_detail"
          saved := some c2
          audits := [create_audit_log c2 actor.userId ACTION_CLOSED
            "Consumer confirmed resolution and closed the complaint" "" ""] }
      else
        { response := Response.render "core/complaint_close_confirm.html", saved := none, audits := [] }

/-- The same database with the row at `pk` deleted; used to express that a
response is indistinguishable from the complaint not existing. -/
def removePk (db : Db) (pk : Nat) : Db := fun k => if k = pk then none else db k

/-- A fetch whose row belongs to another tenant behaves as a miss. -/
theorem get404_cross (db : Db) (pk : Nat) (c : Complaint) (t : Nat)
    (hc : db pk = some c) (ht : c.tenant ≠ t) :
    get_object_or_404 db pk t = none := by
  simp [get_object_or_404, hc, ht]

/-- A fetch at a deleted key is a miss. -/
theorem get404_removed (db : Db) (pk t : Nat) :
    get_object_or_404 (removePk db pk) pk t = none := by
  simp [get_object_or_404, removePk]

/-- Fixture: a sample complaint of tenant 1, submitted by user 100. -/
def cOpenT1 : Complaint :=
  { id := 1, tenant := 1, reference_number := "ALP-1234", title := "t"
    description := "d", category := "", priority := Priority.PRIORITY_MEDIUM
    status := STATUS_OPEN, submitted_by := some 100, logged_by := none
    assigned_to := none, resolution_notes := "", resolved_at := none
    closed_at := none }

/-- Fixture: a one-row database holding `cOpenT1` at key 1. -/
def dbT1 : Db := fun k => if k = 1 then some cOpenT1 else none

/-- Fixture: the same complaint after resolution, assigned to user 50. -/
def cResolvedT1 : Complaint :=
  { cOpenT1 with
    status := STATUS_RESOLVED
    resolved_at := some 3
    assigned_to := some 50
    resolution_notes := "fixed" }

/-- Fixture: a one-row database holding `cResolvedT1` at key 1. -/
def dbResolved : Db := fun k => if k = 1 then some cResolvedT1 else none

/-- Fixture: the complaint after closure. -/
def cClosedT1 : Complaint :=
  { cResolvedT1 with status := STATUS_CLOSED, closed_at := some 4 }

/-- Fixture: a one-row database holding `cClosedT1` at key 1. -/
def dbClosed : Db := fun k => if k = 1 then some cClosedT1 else none

/-- `Complaint.save` never changes the status field. -/
theorem save_status (c : Complaint) (now : Nat) (fresh : String) :
    (c.save now fresh).status = c.status := by
  simp only [Complaint.save]
  repeat' split
  all_goals rfl

/-- `Complaint.save` never changes the assignee field. -/
theorem save_assigned_to (c : Complaint) (now : Nat) (fresh : String) :
    (c.save now fresh).assigned_to = c.assigned_to := by
  simp only [Complaint.save]
  repeat' split
  all_goals rfl

/-- `Complaint.save` never changes the resolution notes. -/
theorem save_resolution_notes (c : Complaint) (now : Nat) (fresh : String) :
    (c.save now fresh).resolution_notes = c.resolution_notes := by
  simp only [Complaint.save]
  repeat' split
  all_goals rfl

/-- The resolved timestamp after `Complaint.save`: set to now exactly when
the status is Resolved and the timestamp was unset, else untouched. -/
theorem save_resolved_at (c : Complaint) (now : Nat) (fresh : String) :
    (c.save now fresh).resolved_at =
      if c.status = STATUS_RESOLVED ∧ c.resolved_at = none then some now
      else c.resolved_at := by
  simp only [Complaint.save]
  repeat' split
  all_goals simp_all

/-- The closed timestamp after `Complaint.save`: set to now exactly when
the status is Closed and the timestamp was unset, else untouched. -/
theorem save_closed_at (c : Complaint) (now : Nat) (fresh : String) :
    (c.save now fresh).closed_at =
      if c.status = STATUS_CLOSED ∧ c.closed_at = none then some now
      else c.closed_at := by
  simp only [Complaint.save]
  repeat' split
  all_goals simp_all

/-- The transition table has no self-loops, so once the bound form has
written the requested status into the instance, `can_update_status` of
that instance at the same requested status is always false. -/
theorem no_self_transition (ns : Status) (c : Complaint) :
    ({ c with status := ns } : Complaint).can_update_status ns = false := by
  cases ns <;> simp [Complaint.can_update_status, valid_transitions]

/-- Claim C1: for every actor holding a profile and every complaint stored
under `pk` whose tenant differs from the actor tenant, each of the five
complaint operations (view, status change, assign, add resolution, close)
returns exactly the result it would return if the complaint did not exist
at all, and performs no save and writes no audit entry — denial regardless
of role, indistinguishable from absence. -/
theorem cross_tenant_isolation (db : Db) (actor : Actor) (p : Profile)
    (pk : Nat) (c : Complaint) (method : Method) (ns : Status)
    (assignee : Nat) (notes : String) (now : Nat) (ref : String)
    (hp : actor.profile = some p) (hc : db pk = some c)
    (ht : c.tenant ≠ p.tenant) :
    (complaint_detail db actor pk = complaint_detail (removePk db pk) actor pk
      ∧ (complaint_detail db actor pk).saved = none
      ∧ (complaint_detail db actor pk).audits = [])
    ∧ (complaint_update_status db actor pk method ns now ref
        = complaint_update_status (removePk db pk) actor pk method ns now ref
      ∧ (complaint_update_status db actor pk method ns now ref).saved = none
      ∧ (complaint_update_status db actor pk method ns now ref).audits = [])
    ∧ (complaint_assign db actor pk method assignee now ref
        = complaint_assign (removePk db pk) actor pk method assignee now ref
      ∧ (complaint_assign db actor pk method assignee now ref).saved = none
      ∧ (complaint_assign db actor pk method assignee now ref).audits = [])
    ∧ (complaint_add_resolution db actor pk method notes now ref
        = complaint_add_resolution (removePk db pk) actor pk method notes now ref
      ∧ (complaint_add_resolution db actor pk method notes now ref).saved = none
      ∧ (complaint_add_resolution db actor pk method notes now ref).audits = [])
    ∧ (complaint_close db actor pk method now ref
        = complaint_close (removePk db pk) actor pk method now ref
      ∧ (complaint_close db actor pk method now ref).saved = none
      ∧ (complaint_close db actor pk method now ref).audits = []) := by
  have hmiss : get_object_or_404 db pk p.tenant = none := get404_cross db pk c p.tenant hc ht
  have hmiss2 : get_object_or_404 (removePk db pk) pk p.tenant = none :=
    get404_removed db pk p.tenant
  refine ⟨?_, ?_, ?_, ?_, ?_⟩
  · simp [complaint_detail, hp, hmiss, hmiss2]
  · by_cases hr : p.role ∈ [ROLE_HELPDESK, ROLE_SUPPORT, ROLE_MANAGER, ROLE_ADMIN] <;>
      simp [complaint_update_status, role_required, hp, hr, hmiss, hmiss2]
  · by_cases hr : p.role ∈ [ROLE_HELPDESK, ROLE_MANAGER, ROLE_ADMIN] <;>
      simp [complaint_assign, role_required, hp, hr, hmiss, hmiss2]
  · by_cases hr : p.role ∈ [ROLE_SUPPORT, ROLE_MANAGER, ROLE_ADMIN] <;>
      simp [complaint_add_resolution, role_required, hp, hr, hmiss, hmiss2]
  · simp [complaint_close, hp, hmiss, hmiss2]

/-- Witness for C1: a helpdesk actor of tenant 2 targeting the tenant-1
complaint stored at key 1 gets results identical to a database without
that complaint. -/
theorem cross_tenant_isolation_witness :
    (⟨7, some ⟨2, ROLE_HELPDESK⟩⟩ : Actor).profile = some ⟨2, ROLE_HELPDESK⟩
    ∧ dbT1 1 = some cOpenT1 ∧ cOpenT1.tenant ≠ (2 : Nat)
    ∧ complaint_detail dbT1 ⟨7, some ⟨2, ROLE_HELPDESK⟩⟩ 1
        = complaint_detail (removePk dbT1 1) ⟨7, some ⟨2, ROLE_HELPDESK⟩⟩ 1
    ∧ (complaint_update_status dbT1 ⟨7, some ⟨2, ROLE_HELPDESK⟩⟩ 1
        Method.POST STATUS_CLOSED 5 "R").audits = [] := by
  have h := cross_tenant_isolation dbT1 ⟨7, some ⟨2, ROLE_HELPDESK⟩⟩
    ⟨2, ROLE_HELPDESK⟩ 1 cOpenT1 Method.POST STATUS_CLOSED 9 "n" 5 "R"
    rfl rfl (by decide)
  exact ⟨rfl, rfl, by decide, h.1.1, h.2.1.2.2⟩

/-- Claim C2 as stated is false in both directions.  The bound ModelForm
writes the posted status into the instance during `is_valid()`, so the
allowed-destinations check compares the requested status against its own
table row and always fails: a helpdesk request Open to InProgress — in
the allowed table — is rejected with no save and no audit entry.  And the
Administrator override has no check that the requested status differs
from the current one: the admin request re-entering Open succeeds. -/
theorem status_update_counterexample :
    cOpenT1.status = STATUS_OPEN
    ∧ STATUS_IN_PROGRESS ∈ valid_transitions cOpenT1.status
    ∧ (complaint_update_status dbT1 ⟨7, some ⟨1, ROLE_HELPDESK⟩⟩ 1 Method.POST
        STATUS_IN_PROGRESS 5 "R").saved = none
    ∧ (complaint_update_status dbT1 ⟨7, some ⟨1, ROLE_HELPDESK⟩⟩ 1 Method.POST
        STATUS_IN_PROGRESS 5 "R").audits = []
    ∧ (complaint_update_status dbT1 ⟨8, some ⟨1, ROLE_ADMIN⟩⟩ 1 Method.POST
        STATUS_OPEN 5 "R").saved.isSome = true := by decide

/-- Claim C2 (amended): because the bound ModelForm writes the requested
status into the instance before the guard runs, the allowed-destinations
check always fails and a status-change request succeeds iff the actor is
an Administrator, for any requested status including re-entering the
current one; a rejected request saves nothing and creates no audit
entry; an admin success saves the complaint with the requested status and
writes exactly one audit entry whose old and new values both record the
requested status. -/
theorem status_update_characterization (db : Db) (actor : Actor) (p : Profile)
    (pk : Nat) (c : Complaint) (ns : Status) (now : Nat) (ref : String)
    (hp : actor.profile = some p)
    (hrole : p.role ∈ [ROLE_HELPDESK, ROLE_SUPPORT, ROLE_MANAGER, ROLE_ADMIN])
    (hget : get_object_or_404 db pk p.tenant = some c) :
    ((complaint_update_status db actor pk Method.POST ns now ref).saved.isSome
      ↔ p.role = ROLE_ADMIN)
    ∧ (p.role ≠ ROLE_ADMIN →
        (complaint_update_status db actor pk Method.POST ns now ref).saved = none
        ∧ (complaint_update_status db actor pk Method.POST ns now ref).audits = [])
    ∧ (p.role = ROLE_ADMIN →
        (complaint_update_status db actor pk Method.POST ns now ref).saved
          = some (({ c with status := ns }).save now ref)
        ∧ (complaint_update_status db actor pk Method.POST ns now ref).audits.map
            (fun a => (a.old_value, a.new_value)) = [(statusStr ns, statusStr ns)]) := by
  have hcan := no_self_transition ns c
  by_cases ha : p.role = ROLE_ADMIN <;>
    simp [complaint_update_status, role_required, hp, hrole, hget, hcan, ha,
      create_audit_log]

/-- Witness for C2: an admin actor re-targeting the Open complaint at key
1 to InProgress saves it, with the audit old and new values both equal to
the requested status; the hypotheses are discharged at this input. -/
theorem status_update_characterization_witness :
    (⟨8, some ⟨1, ROLE_ADMIN⟩⟩ : Actor).profile = some ⟨1, ROLE_ADMIN⟩
    ∧ ROLE_ADMIN ∈ [ROLE_HELPDESK, ROLE_SUPPORT, ROLE_MANAGER, ROLE_ADMIN]
    ∧ get_object_or_404 dbT1 1 1 = some cOpenT1
    ∧ (complaint_update_status dbT1 ⟨8, some ⟨1, ROLE_ADMIN⟩⟩ 1 Method.POST
        STATUS_IN_PROGRESS 5 "R").saved
        = some (({ cOpenT1 with status := STATUS_IN_PROGRESS }).save 5 "R")
    ∧ (complaint_update_status dbT1 ⟨8, some ⟨1, ROLE_ADMIN⟩⟩ 1 Method.POST
        STATUS_IN_PROGRESS 5 "R").audits.map (fun a => (a.old_value, a.new_value))
        = [(statusStr STATUS_IN_PROGRESS, statusStr STATUS_IN_PROGRESS)] := by
  have h := status_update_characterization dbT1 ⟨8, some ⟨1, ROLE_ADMIN⟩⟩
    ⟨1, ROLE_ADMIN⟩ 1 cOpenT1 STATUS_IN_PROGRESS 5 "R" rfl (by decide) (by decide)
  exact ⟨rfl, by decide, by decide, (h.2.2 rfl).1, (h.2.2 rfl).2⟩

/-- Claim C3: each of the mutating operations (create, status change,
assign, add resolution, close) creates exactly one audit entry when it
saves a complaint and none otherwise, for every input — one audit record
per successful mutation, none on a rejected one. -/
theorem audit_paired_with_mutation (db : Db) (actor : Actor) (pk : Nat)
    (method : Method) (ns : Status) (assignee : Nat)
    (notes title description category : String) (priority : Priority)
    (on_behalf : Option Nat) (cpk now : Nat) (ref : String) :
    ((complaint_create actor method title description category priority on_behalf cpk now ref).audits.length
      = if (complaint_create actor method title description category priority on_behalf cpk now ref).saved.isSome then 1 else 0)
    ∧ ((complaint_update_status db actor pk method ns now ref).audits.length
      = if (complaint_update_status db actor pk method ns now ref).saved.isSome then 1 else 0)
    ∧ ((complaint_assign db actor pk method assignee now ref).audits.length
      = if (complaint_assign db actor pk method assignee now ref).saved.isSome then 1 else 0)
    ∧ ((complaint_add_resolution db actor pk method notes now ref).audits.length
      = if (complaint_add_resolution db actor pk method notes now ref).saved.isSome then 1 else 0)
    ∧ ((complaint_close db actor pk method now ref).audits.length
      = if (complaint_close db actor pk method now ref).saved.isSome then 1 else 0) := by
  obtain ⟨uid, prof⟩ := actor
  refine ⟨?_, ?_, ?_, ?_, ?_⟩ <;>
    cases prof with
    | none =>
        simp [complaint_create, complaint_update_status, complaint_assign,
          complaint_add_resolution, complaint_close, role_required]
    | some p =>
        simp only [complaint_create, complaint_update_status, complaint_assign,
          complaint_add_resolution, complaint_close, role_required]
        repeat' split
        all_goals first | rfl | simp_all

/-- Claim C4 as stated is false: neither `complaint_assign` nor
`complaint_add_resolution` checks the status, so fields of a Closed
complaint still change.  Concretely: on the Closed complaint at key 1,
a support actor overwrites the resolution notes and a helpdesk actor
re-assigns the complaint. -/
theorem closed_complaint_mutated_counterexample :
    cClosedT1.status = STATUS_CLOSED
    ∧ (complaint_add_resolution dbClosed ⟨9, some ⟨1, ROLE_SUPPORT⟩⟩ 1 Method.POST
        "new fix" 6 "R").saved.map (fun c => c.resolution_notes) = some "new fix"
    ∧ cClosedT1.resolution_notes ≠ "new fix"
    ∧ (complaint_assign dbClosed ⟨7, some ⟨1, ROLE_HELPDESK⟩⟩ 1 Method.POST
        51 6 "R").saved.map (fun c => c.assigned_to) = some (some 51)
    ∧ cClosedT1.assigned_to ≠ some 51 := by decide

/-- Claim C4 (amended): for a Closed complaint, the generic status change
by a non-Administrator is rejected and the close operation saves nothing,
but the assignment operation still changes the assignee (leaving the
status Closed), the add-resolution operation still changes the resolution
notes (leaving the status Closed), and an Administrator status change
saves a new status. -/
theorem closed_complaint_frame (db : Db) (actor : Actor) (p : Profile)
    (pk : Nat) (c : Complaint) (ns : Status) (assignee : Nat)
    (notes : String) (now : Nat) (ref : String)
    (hp : actor.profile = some p)
    (hget : get_object_or_404 db pk p.tenant = some c)
    (hclosed : c.status = STATUS_CLOSED) :
    (p.role ≠ ROLE_ADMIN →
      (complaint_update_status db actor pk Method.POST ns now ref).saved = none
      ∧ (complaint_update_status db actor pk Method.POST ns now ref).audits = [])
    ∧ ((complaint_close db actor pk Method.POST now ref).saved = none
      ∧ (complaint_close db actor pk Method.POST now ref).audits = [])
    ∧ (p.role ∈ [ROLE_HELPDESK, ROLE_MANAGER, ROLE_ADMIN] →
        ∃ c2, (complaint_assign db actor pk Method.POST assignee now ref).saved = some c2
          ∧ c2.status = STATUS_CLOSED ∧ c2.assigned_to = some assignee)
    ∧ (p.role ∈ [ROLE_SUPPORT, ROLE_MANAGER, ROLE_ADMIN] → notes ≠ "" →
        ∃ c3, (complaint_add_resolution db actor pk Method.POST notes now ref).saved = some c3
          ∧ c3.status = STATUS_CLOSED ∧ c3.resolution_notes = notes)
    ∧ (p.role = ROLE_ADMIN →
        (complaint_update_status db actor pk Method.POST ns now ref).saved
          = some (({ c with status := ns }).save now ref)) := by
  have hcan := no_self_transition ns c
  refine ⟨?_, ?_, ?_, ?_, ?_⟩
  · intro hna
    by_cases hr : p.role ∈ [ROLE_HELPDESK, ROLE_SUPPORT, ROLE_MANAGER, ROLE_ADMIN] <;>
      simp [complaint_update_status, role_required, hp, hr, hget, hcan, hna]
  · have hnr : c.status ≠ STATUS_RESOLVED := by simp [hclosed]
    by_cases hsub : c.submitted_by = some actor.userId <;>
      simp [complaint_close, hp, hget, hsub, hnr]
  · intro hr
    refine ⟨({ c with assigned_to := some assignee }).save now ref, ?_, ?_, ?_⟩
    · simp [complaint_assign, role_required, hp, hr, hget, hclosed]
    · rw [save_status]; exact hclosed
    · rw [save_assigned_to]
  · intro hr hnotes
    refine ⟨({ c with resolution_notes := notes }).save now ref, ?_, ?_, ?_⟩
    · simp [complaint_add_resolution, role_required, hp, hr, hget, hnotes]
    · rw [save_status]; exact hclosed
    · rw [save_resolution_notes]
  · intro ha
    have hr : p.role ∈ [ROLE_HELPDESK, ROLE_SUPPORT, ROLE_MANAGER, ROLE_ADMIN] := by
      simp [ha]
    simp [complaint_update_status, role_required, hp, hr, hget, ha]

/-- Witness for C4: a manager acting on the Closed complaint at key 1:
the status change is rejected, close saves nothing, but assignment and
resolution notes still go through. -/
theorem closed_complaint_frame_witness :
    (⟨9, some ⟨1, ROLE_MANAGER⟩⟩ : Actor).profile = some ⟨1, ROLE_MANAGER⟩
    ∧ get_object_or_404 dbClosed 1 1 = some cClosedT1
    ∧ cClosedT1.status = STATUS_CLOSED
    ∧ (complaint_update_status dbClosed ⟨9, some ⟨1, ROLE_MANAGER⟩⟩ 1 Method.POST
        STATUS_OPEN 6 "R").saved = none
    ∧ (complaint_close dbClosed ⟨9, some ⟨1, ROLE_MANAGER⟩⟩ 1 Method.POST 6 "R").saved = none
    ∧ (∃ c2, (complaint_assign dbClosed ⟨9, some ⟨1, ROLE_MANAGER⟩⟩ 1 Method.POST
        51 6 "R").saved = some c2 ∧ c2.status = STATUS_CLOSED ∧ c2.assigned_to = some 51)
    ∧ (∃ c3, (complaint_add_resolution dbClosed ⟨9, some ⟨1, ROLE_MANAGER⟩⟩ 1 Method.POST
        "new fix" 6 "R").saved = some c3 ∧ c3.status = STATUS_CLOSED
        ∧ c3.resolution_notes = "new fix") := by
  have h := closed_complaint_frame dbClosed ⟨9, some ⟨1, ROLE_MANAGER⟩⟩
    ⟨1, ROLE_MANAGER⟩ 1 cClosedT1 STATUS_OPEN 51 "new fix" 6 "R"
    rfl (by decide) (by decide)
  exact ⟨rfl, by decide, by decide, (h.1 (by decide)).1, h.2.1.1,
    h.2.2.1 (by decide), h.2.2.2.1 (by decide) (by decide)⟩

/-- Claim C5 as stated is false: the Administrator override in
`complaint_update_status` is not subject to the transition table, so an
admin can set Closed through the generic status-change operation.
Concretely: the admin request Closed on the Resolved complaint at key 1
saves it Closed and writes a status-change audit entry, so Closed is
reachable outside the Consumer close operation. -/
theorem admin_close_via_status_counterexample :
    cResolvedT1.status = STATUS_RESOLVED
    ∧ (⟨8, some ⟨1, ROLE_ADMIN⟩⟩ : Actor).profile = some ⟨1, ROLE_ADMIN⟩
    ∧ (complaint_update_status dbResolved ⟨8, some ⟨1, ROLE_ADMIN⟩⟩ 1 Method.POST
        STATUS_CLOSED 6 "R").saved.map (fun c => c.status) = some STATUS_CLOSED
    ∧ (complaint_update_status dbResolved ⟨8, some ⟨1, ROLE_ADMIN⟩⟩ 1 Method.POST
        STATUS_CLOSED 6 "R").audits.map (fun a => a.action) = [ACTION_STATUS_CHANGE] := by
  decide

/-- Claim C5 (amended): through the generic status-change operation the
Closed status is reachable exactly by Administrators — an admin request
for Closed succeeds from any current status, while a non-admin staff
request never saves (the bound form makes the table check compare the
requested status against its own row, which never succeeds); so closure
stays consumer-gated for every staff role except Administrator. -/
theorem status_change_close_admin_only (db : Db) (actor : Actor) (p : Profile)
    (pk : Nat) (c : Complaint) (now : Nat) (ref : String)
    (hp : actor.profile = some p)
    (hrole : p.role ∈ [ROLE_HELPDESK, ROLE_SUPPORT, ROLE_MANAGER, ROLE_ADMIN])
    (hget : get_object_or_404 db pk p.tenant = some c) :
    ((complaint_update_status db actor pk Method.POST STATUS_CLOSED now ref).saved.isSome
      ↔ p.role = ROLE_ADMIN)
    ∧ (p.role = ROLE_ADMIN →
        ∃ c2, (complaint_update_status db actor pk Method.POST STATUS_CLOSED now ref).saved
            = some c2 ∧ c2.status = STATUS_CLOSED)
    ∧ (p.role ≠ ROLE_ADMIN →
        (complaint_update_status db actor pk Method.POST STATUS_CLOSED now ref).saved = none
        ∧ (complaint_update_status db actor pk Method.POST STATUS_CLOSED now ref).audits = []) := by
  have hcan := no_self_transition STATUS_CLOSED c
  by_cases ha : p.role = ROLE_ADMIN
  · refine ⟨?_, ?_, ?_⟩
    · simp [complaint_update_status, role_required, hp, hrole, hget, hcan, ha]
    · intro _
      refine ⟨({ c with status := STATUS_CLOSED }).save now ref, ?_, ?_⟩
      · simp [complaint_update_status, role_required, hp, hrole, hget, hcan, ha]
      · rw [save_status]
    · intro hna
      exact absurd ha hna
  · simp [complaint_update_status, role_required, hp, hrole, hget, hcan, ha]

/-- Witness for C5 (amended): the admin actor closing the Resolved
complaint at key 1 through the generic status change succeeds and the
saved status is Closed. -/
theorem status_change_close_admin_only_witness :
    (⟨8, some ⟨1, ROLE_ADMIN⟩⟩ : Actor).profile = some ⟨1, ROLE_ADMIN⟩
    ∧ ROLE_ADMIN ∈ [ROLE_HELPDESK, ROLE_SUPPORT, ROLE_MANAGER, ROLE_ADMIN]
    ∧ get_object_or_404 dbResolved 1 1 = some cResolvedT1
    ∧ ((complaint_update_status dbResolved ⟨8, some ⟨1, ROLE_ADMIN⟩⟩ 1 Method.POST
        STATUS_CLOSED 6 "R").saved.isSome ↔ ROLE_ADMIN = ROLE_ADMIN)
    ∧ (∃ c2, (complaint_update_status dbResolved ⟨8, some ⟨1, ROLE_ADMIN⟩⟩ 1 Method.POST
        STATUS_CLOSED 6 "R").saved = some c2 ∧ c2.status = STATUS_CLOSED) := by
  have h := status_change_close_admin_only dbResolved ⟨8, some ⟨1, ROLE_ADMIN⟩⟩
    ⟨1, ROLE_ADMIN⟩ 1 cResolvedT1 6 "R" rfl (by decide) (by decide)
  exact ⟨rfl, by decide, by decide, h.1, h.2.1 rfl⟩

/-- Claim C6: for a complaint fetched in the actor tenant, the close
operation (POST) succeeds iff the actor is the submitting user and the
status is Resolved; on success the saved complaint is Closed with the
closed timestamp set when it was unset (kept otherwise) and one audit
entry; on failure nothing is saved and no audit entry is created. -/
theorem close_iff_owner_resolved (db : Db) (actor : Actor) (p : Profile)
    (pk : Nat) (c : Complaint) (now : Nat) (ref : String)
    (hp : actor.profile = some p)
    (hget : get_object_or_404 db pk p.tenant = some c) :
    ((complaint_close db actor pk Method.POST now ref).saved.isSome
      ↔ (c.submitted_by = some actor.userId ∧ c.status = STATUS_RESOLVED))
    ∧ ((c.submitted_by = some actor.userId ∧ c.status = STATUS_RESOLVED) →
        ∃ c2, (complaint_close db actor pk Method.POST now ref).saved = some c2
          ∧ c2.status = STATUS_CLOSED
          ∧ c2.closed_at = (if c.closed_at = none then some now else c.closed_at)
          ∧ (complaint_close db actor pk Method.POST now ref).audits.length = 1)
    ∧ (¬(c.submitted_by = some actor.userId ∧ c.status = STATUS_RESOLVED) →
        (complaint_close db actor pk Method.POST now ref).saved = none
        ∧ (complaint_close db actor pk Method.POST now ref).audits = []) := by
  by_cases hsub : c.submitted_by = some actor.userId
  · by_cases hres : c.status = STATUS_RESOLVED
    · refine ⟨?_, ?_, ?_⟩
      · simp [complaint_close, hp, hget, hsub, hres]
      · intro _
        refine ⟨({ c with status := STATUS_CLOSED }).save now ref, ?_, ?_, ?_, ?_⟩
        · simp [complaint_close, hp, hget, hsub, hres]
        · rw [save_status]
        · rw [save_closed_at]; simp
        · simp [complaint_close, hp, hget, hsub, hres]
      · intro hno
        exact absurd ⟨hsub, hres⟩ hno
    · simp [complaint_close, hp, hget, hsub, hres]
  · simp [complaint_close, hp, hget, hsub]

/-- Witness for C6: the submitting consumer (user 100) closes the
Resolved complaint at key 1; the saved complaint is Closed with the
closed timestamp set, and a consumer who is not the submitter would
leave it unsaved. -/
theorem close_iff_owner_resolved_witness :
    (⟨100, some ⟨1, ROLE_CONSUMER⟩⟩ : Actor).profile = some ⟨1, ROLE_CONSUMER⟩
    ∧ get_object_or_404 dbResolved 1 1 = some cResolvedT1
    ∧ (cResolvedT1.submitted_by = some 100 ∧ cResolvedT1.status = STATUS_RESOLVED)
    ∧ (∃ c2, (complaint_close dbResolved ⟨100, some ⟨1, ROLE_CONSUMER⟩⟩ 1
        Method.POST 6 "R").saved = some c2
      ∧ c2.status = STATUS_CLOSED
      ∧ c2.closed_at = (if cResolvedT1.closed_at = none then some 6 else cResolvedT1.closed_at)
      ∧ (complaint_close dbResolved ⟨100, some ⟨1, ROLE_CONSUMER⟩⟩ 1
          Method.POST 6 "R").audits.length = 1) := by
  have h := close_iff_owner_resolved dbResolved ⟨100, some ⟨1, ROLE_CONSUMER⟩⟩
    ⟨1, ROLE_CONSUMER⟩ 1 cResolvedT1 6 "R" rfl (by decide)
  exact ⟨rfl, by decide, by decide, h.2.1 (by decide)⟩

/-- One persisted save event in a sequence of saves of the same row: the
status written before calling save, the clock value, and the reference
the generator would supply. -/
def applyStatusSave (c : Complaint) (e : Status × Nat × String) : Complaint :=
  ({ c with status := e.1 }).save e.2.1 e.2.2

/-- A sequence of save events applied in order to one complaint row. -/
def saveChain (c : Complaint) (evs : List (Status × Nat × String)) : Complaint :=
  evs.foldl applyStatusSave c

/-- The resolved timestamp after one save event. -/
theorem applyStatusSave_resolved_at (c : Complaint) (e : Status × Nat × String) :
    (applyStatusSave c e).resolved_at =
      if e.1 = STATUS_RESOLVED ∧ c.resolved_at = none then some e.2.1
      else c.resolved_at := by
  simp [applyStatusSave, save_resolved_at]

/-- Claim C7: across any sequence of saves, the resolved timestamp is
assigned exactly once — starting unset, after the whole sequence it holds
the clock value of the first save whose status is Resolved (and stays
unset when there is none); and once it holds a value, no later save
changes it, including leaving Resolved and re-entering. -/
theorem resolved_at_first_entry (c : Complaint) (evs : List (Status × Nat × String)) :
    (c.resolved_at = none →
      (saveChain c evs).resolved_at
        = (evs.find? (fun e => e.1 == STATUS_RESOLVED)).map (fun e => e.2.1))
    ∧ (∀ v, c.resolved_at = some v → (saveChain c evs).resolved_at = some v) := by
  induction evs generalizing c with
  | nil => simp [saveChain]
  | cons e t ih =>
    have hchain : saveChain c (e :: t) = saveChain (applyStatusSave c e) t := rfl
    constructor
    · intro hnone
      by_cases hs : e.1 = STATUS_RESOLVED
      · have h1 : (applyStatusSave c e).resolved_at = some e.2.1 := by
          rw [applyStatusSave_resolved_at]
          simp [hs, hnone]
        have h2 := (ih (applyStatusSave c e)).2 e.2.1 h1
        rw [hchain, h2]
        simp [List.find?_cons, hs]
      · have h1 : (applyStatusSave c e).resolved_at = none := by
          rw [applyStatusSave_resolved_at]
          simp [hs, hnone]
        have h2 := (ih (applyStatusSave c e)).1 h1
        rw [hchain, h2]
        simp [List.find?_cons, hs]
    · intro v hv
      have h1 : (applyStatusSave c e).resolved_at = some v := by
        rw [applyStatusSave_resolved_at]
        simp [hv]
      exact hchain ▸ (ih (applyStatusSave c e)).2 v h1

/-- Witness for C7: starting from the Open complaint (resolved timestamp
unset), the save sequence InProgress at 1, Resolved at 2, InProgress at 3,
Resolved at 4 leaves the resolved timestamp at 2 — the first Resolved
entry, not overwritten by the later re-entry. -/
theorem resolved_at_first_entry_witness :
    cOpenT1.resolved_at = none
    ∧ (saveChain cOpenT1
        [(STATUS_IN_PROGRESS, 1, "R"), (STATUS_RESOLVED, 2, "R"),
         (STATUS_IN_PROGRESS, 3, "R"), (STATUS_RESOLVED, 4, "R")]).resolved_at
      = some 2 := by
  have h := (resolved_at_first_entry cOpenT1
    [(STATUS_IN_PROGRESS, 1, "R"), (STATUS_RESOLVED, 2, "R"),
     (STATUS_IN_PROGRESS, 3, "R"), (STATUS_RESOLVED, 4, "R")]).1 rfl
  exact ⟨rfl, by rw [h]; rfl⟩

/-- Claim C8: the assignment operation (POST, permitted role, complaint
fetched in tenant) always saves; the saved status is InProgress when the
complaint was Open and unchanged otherwise — so the status changes iff it
was Open — the assignee is recorded, and exactly one audit entry of kind
assigned is written (the combined-entry choice of the implementation, so
no status-change record precedes the assignment record). -/
theorem assign_auto_advance (db : Db) (actor : Actor) (p : Profile)
    (pk : Nat) (c : Complaint) (assignee : Nat) (now : Nat) (ref : String)
    (hp : actor.profile = some p)
    (hrole : p.role ∈ [ROLE_HELPDESK, ROLE_MANAGER, ROLE_ADMIN])
    (hget : get_object_or_404 db pk p.tenant = some c) :
    ∃ c2, (complaint_assign db actor pk Method.POST assignee now ref).saved = some c2
      ∧ c2.status = (if c.status = STATUS_OPEN then STATUS_IN_PROGRESS else c.status)
      ∧ (c2.status ≠ c.status ↔ c.status = STATUS_OPEN)
      ∧ c2.assigned_to = some assignee
      ∧ (complaint_assign db actor pk Method.POST assignee now ref).audits.map
          (fun a => a.action) = [ACTION_ASSIGNED] := by
  by_cases hopen : c.status = STATUS_OPEN
  · refine ⟨({ { c with assigned_to := some assignee } with status := STATUS_IN_PROGRESS }).save now ref,
      ?_, ?_, ?_, ?_, ?_⟩
    · simp [complaint_assign, role_required, hp, hrole, hget, hopen]
    · rw [save_status]; simp [hopen]
    · rw [save_status]; simp [hopen]
    · rw [save_assigned_to]
    · simp [complaint_assign, role_required, hp, hrole, hget, hopen, create_audit_log]
  · refine ⟨({ c with assigned_to := some assignee }).save now ref, ?_, ?_, ?_, ?_, ?_⟩
    · simp [complaint_assign, role_required, hp, hrole, hget, hopen]
    · rw [save_status]; simp [hopen]
    · rw [save_status]; simp [hopen]
    · rw [save_assigned_to]
    · simp [complaint_assign, role_required, hp, hrole, hget, hopen, create_audit_log]

/-- Witness for C8: a helpdesk actor assigning user 50 to the Open
complaint at key 1 auto-advances its status to InProgress with one
assigned audit entry. -/
theorem assign_auto_advance_witness :
    (⟨7, some ⟨1, ROLE_HELPDESK⟩⟩ : Actor).profile = some ⟨1, ROLE_HELPDESK⟩
    ∧ ROLE_HELPDESK ∈ [ROLE_HELPDESK, ROLE_MANAGER, ROLE_ADMIN]
    ∧ get_object_or_404 dbT1 1 1 = some cOpenT1
    ∧ (∃ c2, (complaint_assign dbT1 ⟨7, some ⟨1, ROLE_HELPDESK⟩⟩ 1 Method.POST
        50 5 "R").saved = some c2
      ∧ c2.status = (if cOpenT1.status = STATUS_OPEN then STATUS_IN_PROGRESS else cOpenT1.status)
      ∧ (c2.status ≠ cOpenT1.status ↔ cOpenT1.status = STATUS_OPEN)
      ∧ c2.assigned_to = some 50
      ∧ (complaint_assign dbT1 ⟨7, some ⟨1, ROLE_HELPDESK⟩⟩ 1 Method.POST
          50 5 "R").audits.map (fun a => a.action) = [ACTION_ASSIGNED]) := by
  have h := assign_auto_advance dbT1 ⟨7, some ⟨1, ROLE_HELPDESK⟩⟩
    ⟨1, ROLE_HELPDESK⟩ 1 cOpenT1 50 5 "R" rfl (by decide) (by decide)
  exact ⟨rfl, by decide, by decide, h⟩

/-- Claim C9 as stated is false: the decorator on
`complaint_add_resolution` is `role_required(["support", "manager",
"admin"])`, so an Administrator is permitted, not denied.  Concretely: an
admin actor posting resolution notes to the complaint at key 1 gets them
saved with an audit entry rather than a denial. -/
theorem admin_resolution_counterexample :
    role_required [ROLE_SUPPORT, ROLE_MANAGER, ROLE_ADMIN] ⟨8, some ⟨1, ROLE_ADMIN⟩⟩ = none
    ∧ (complaint_add_resolution dbT1 ⟨8, some ⟨1, ROLE_ADMIN⟩⟩ 1 Method.POST
        "done" 5 "R").saved.map (fun c => c.resolution_notes) = some "done"
    ∧ (∀ msg, (complaint_add_resolution dbT1 ⟨8, some ⟨1, ROLE_ADMIN⟩⟩ 1 Method.POST
        "done" 5 "R").response ≠ Response.forbidden msg) := by
  refine ⟨by decide, by decide, ?_⟩
  intro msg
  simp [complaint_add_resolution, role_required, get_object_or_404, dbT1, cOpenT1]

/-- Claim C9 (amended): the add-resolution-notes operation is permitted
exactly for the Support, Manager, and Administrator roles; a Consumer or
Helpdesk actor is rejected with the permission-denied response, and a
permitted actor never receives a forbidden response from it. -/
theorem resolution_role_gate (db : Db) (actor : Actor) (p : Profile)
    (pk : Nat) (method : Method) (notes : String) (now : Nat) (ref : String)
    (hp : actor.profile = some p) :
    (role_required [ROLE_SUPPORT, ROLE_MANAGER, ROLE_ADMIN] actor = none
      ↔ (p.role = ROLE_SUPPORT ∨ p.role = ROLE_MANAGER ∨ p.role = ROLE_ADMIN))
    ∧ ((p.role = ROLE_CONSUMER ∨ p.role = ROLE_HELPDESK) →
        complaint_add_resolution db actor pk method notes now ref
          = { response := Response.forbidden "You do not have permission to perform this action."
              saved := none, audits := [] })
    ∧ ((p.role = ROLE_SUPPORT ∨ p.role = ROLE_MANAGER ∨ p.role = ROLE_ADMIN) →
        ∀ msg, (complaint_add_resolution db actor pk method notes now ref).response
          ≠ Response.forbidden msg) := by
  refine ⟨?_, ?_, ?_⟩
  · simp [role_required, hp]
    tauto
  · intro hr
    have hmem : p.role ∉ [ROLE_SUPPORT, ROLE_MANAGER, ROLE_ADMIN] := by
      rcases hr with h | h <;> simp [h]
    simp [complaint_add_resolution, role_required, hp, hmem]
  · intro hr msg
    have hmem : p.role ∈ [ROLE_SUPPORT, ROLE_MANAGER, ROLE_ADMIN] := by
      rcases hr with h | h | h <;> simp [h]
    rcases hget : get_object_or_404 db pk p.tenant with _ | c <;>
      by_cases hpost : (method = Method.POST ∧ notes ≠ "") <;>
        simp [complaint_add_resolution, role_required, hp, hmem, hget, hpost]

/-- Witness for C9 (amended): a helpdesk actor is rejected by the
resolution-notes gate while a support actor is never forbidden. -/
theorem resolution_role_gate_witness :
    (⟨7, some ⟨1, ROLE_HELPDESK⟩⟩ : Actor).profile = some ⟨1, ROLE_HELPDESK⟩
    ∧ (ROLE_HELPDESK = ROLE_CONSUMER ∨ ROLE_HELPDESK = ROLE_HELPDESK)
    ∧ complaint_add_resolution dbT1 ⟨7, some ⟨1, ROLE_HELPDESK⟩⟩ 1 Method.POST "x" 5 "R"
        = { response := Response.forbidden "You do not have permission to perform this action."
            saved := none, audits := [] } := by
  have h := resolution_role_gate dbT1 ⟨7, some ⟨1, ROLE_HELPDESK⟩⟩
    ⟨1, ROLE_HELPDESK⟩ 1 Method.POST "x" 5 "R" rfl
  exact ⟨rfl, Or.inr rfl, h.2.1 (Or.inr rfl)⟩

/-- Claim C10 as stated is false: a consumer viewing a same-tenant
complaint submitted by someone else receives HttpResponseForbidden with a
permission message (HTTP 403), while a complaint that does not exist
yields Http404 — the two responses differ, so the denial is
distinguishable from absence.  Concretely: consumer 200 of tenant 1
viewing complaint 1 (submitted by user 100) versus viewing the
nonexistent key 99. -/
theorem consumer_view_distinguishable_counterexample :
    cOpenT1.submitted_by ≠ some 200
    ∧ cOpenT1.tenant = 1
    ∧ (complaint_detail dbT1 ⟨200, some ⟨1, ROLE_CONSUMER⟩⟩ 1).response
        = Response.forbidden "You do not have permission to view this complaint."
    ∧ (complaint_detail dbT1 ⟨200, some ⟨1, ROLE_CONSUMER⟩⟩ 99).response = Response.notFound
    ∧ (complaint_detail dbT1 ⟨200, some ⟨1, ROLE_CONSUMER⟩⟩ 1).response
        ≠ (complaint_detail dbT1 ⟨200, some ⟨1, ROLE_CONSUMER⟩⟩ 99).response := by decide

/-- Claim C10 (amended): a consumer requesting a complaint of their own
tenant submitted by someone else receives a forbidden response carrying
the permission message — a denial distinct from the not-found response a
nonexistent complaint produces. -/
theorem consumer_view_forbidden (db : Db) (actor : Actor) (p : Profile)
    (pk : Nat) (c : Complaint)
    (hp : actor.profile = some p) (hrole : p.role = ROLE_CONSUMER)
    (hget : get_object_or_404 db pk p.tenant = some c)
    (hsub : c.submitted_by ≠ some actor.userId) :
    (complaint_detail db actor pk).response
      = Response.forbidden "You do not have permission to view this complaint."
    ∧ (complaint_detail db actor pk).response ≠ Response.notFound := by
  constructor <;> simp [complaint_detail, hp, hrole, hget, hsub]

/-- Witness for C10 (amended): consumer 200 of tenant 1 viewing the
complaint at key 1 submitted by user 100. -/
theorem consumer_view_forbidden_witness :
    (⟨200, some ⟨1, ROLE_CONSUMER⟩⟩ : Actor).profile = some ⟨1, ROLE_CONSUMER⟩
    ∧ get_object_or_404 dbT1 1 1 = some cOpenT1
    ∧ cOpenT1.submitted_by ≠ some 200
    ∧ (complaint_detail dbT1 ⟨200, some ⟨1, ROLE_CONSUMER⟩⟩ 1).response
        = Response.forbidden "You do not have permission to view this complaint."
    ∧ (complaint_detail dbT1 ⟨200, some ⟨1, ROLE_CONSUMER⟩⟩ 1).response
        ≠ Response.notFound := by
  have h := consumer_view_forbidden dbT1 ⟨200, some ⟨1, ROLE_CONSUMER⟩⟩
    ⟨1, ROLE_CONSUMER⟩ 1 cOpenT1 rfl rfl (by decide) (by decide)
  exact ⟨rfl, by decide, by decide, h.1, h.2⟩

end CMS
